import Mathlib

/-!
Verification of the configuration-reconciliation core of
src/pappl/printer-webif.c: ready-media form decoding
(_papplPrinterWebMedia), scalar default decoding (_papplPrinterWebDefaults),
the status-reason aggregation loop (_papplPrinterIteratorWebCallback),
keyword localization (localize_keyword) and the custom-size range logic of
media_chooser.

Machine integers are modelled as Int/Nat (all quantities involved are far
from overflow), C strings as Lean String, and the untrusted form submission
as a partial map from keys to values (cupsGetOption).  atof/snprintf
arithmetic is modelled over exact decimal values; the C (int) cast is
truncation toward zero.
-/

namespace Pappl

/-- A form submission: cupsGetOption lookup, last value for a key wins, so a
form is simply a partial map from keys to string values. -/
abbrev Form : Type := String → Option String

/-- One ready-media slot (pappl_media_col_t): the fields read and written by
printer-webif.c. -/
structure MediaCol where
  size_name : String
  size_width : Int
  size_length : Int
  bottom_margin : Int
  left_margin : Int
  right_margin : Int
  top_margin : Int
  left_offset : Int
  top_offset : Int
  tracking : Int
  source : String
  type : String
deriving DecidableEq, Repr

/-- The zero-valued slot produced by memset(data.media_ready, 0, ...). -/
def zeroMediaCol : MediaCol :=
  ⟨"", 0, 0, 0, 0, 0, 0, 0, 0, 0, "", ""⟩

/-- The driver capability descriptor (pappl_pdriver_data_t): the fields read
and written by the form decoders. -/
@[ext]
structure DriverData where
  source : List String
  media_ready : List MediaCol
  media_default : MediaCol
  bottom_top : Int
  left_right : Int
  orient_default : Int
  color_default : Int
  content_default : Int
  darkness_configured : Int
  quality_default : Int
  scaling_default : Int
  speed_default : Int
  sides_default : Int
  x_default : Int
  y_default : Int
deriving DecidableEq, Repr

/-! ### C number parsing and formatting primitives -/

/-- Characters treated as whitespace by isspace in the C locale. -/
def isSpaceChar (c : Char) : Bool :=
  c = ' ' || c = '\t' || c = '\n' || c = '\r' || c = '\x0b' || c = '\x0c'

/-- Drop leading whitespace, as the number-scanning C functions do. -/
def skipSpaces : List Char → List Char
  | c :: cs => if isSpaceChar c then skipSpaces cs else c :: cs
  | [] => []

/-- Scan a run of decimal digits, returning the accumulated value, the
number of digits consumed and the rest of the input. -/
def scanDigits : List Char → Nat → Nat → Nat × Nat × List Char
  | c :: cs, acc, n =>
    if c.isDigit then scanDigits cs (10 * acc + (c.toNat - 48)) (n + 1)
    else (acc, n, c :: cs)
  | [], acc, n => (acc, n, [])

/-- Scan an optionally signed decimal integer after skipping whitespace
(the conversion performed by a %d directive and by atoi); none when no
digit is found. -/
def scanInt (cs : List Char) : Option (Int × List Char) :=
  let cs1 := skipSpaces cs
  let sr : Int × List Char :=
    match cs1 with
    | '-' :: r => (-1, r)
    | '+' :: r => (1, r)
    | _ => (1, cs1)
  let (v, n, rest) := scanDigits sr.2 0 0
  if n = 0 then none else some (sr.1 * (v : Int), rest)

/-- C atoi: parsed integer value, 0 when the string holds no number. -/
def atoiZ (s : String) : Int :=
  match scanInt s.toList with
  | some (v, _) => v
  | none => 0

/-- An exact decimal value num / den, with den a positive power of ten.
This representation of atof results keeps every computation over machine
integers (no rational normalization), mirroring the C code's arithmetic on
exact values. -/
abbrev Dec : Type := Int × Nat

/-- The exact rational value of a decimal. -/
def decValQ (p : Dec) : ℚ := (p.1 : ℚ) / (p.2 : ℚ)

/-- Scan an unsigned decimal number with an optional fractional part
(digits, optional dot, digits) as an exact decimal; none when there is no
digit at all. -/
def parseUDec (cs : List Char) : Option (Dec × List Char) :=
  let (ip, n, rest) := scanDigits cs 0 0
  match rest with
  | '.' :: rest2 =>
    let (fp, m, rest3) := scanDigits rest2 0 0
    if n = 0 ∧ m = 0 then none
    else some (((ip * 10 ^ m + fp : Nat), 10 ^ m), rest3)
  | _ => if n = 0 then none else some (((ip : Int), 1), rest)

/-- C atof on the plain decimal values submitted by the web form (optional
whitespace, optional sign, digits with an optional fraction); 0 when the
string holds no number.  Exponent notation is not submitted by the form and
is not modelled. -/
def atofD (s : String) : Dec :=
  let cs := skipSpaces s.toList
  let sr : Int × List Char :=
    match cs with
    | '-' :: r => (-1, r)
    | '+' :: r => (1, r)
    | _ => (1, cs)
  match parseUDec sr.2 with
  | some (p, _) => (sr.1 * p.1, p.2)
  | none => (0, 1)

/-- The exact rational value parsed by atof. -/
def atofQ (s : String) : ℚ := decValQ (atofD s)

/-- The C (int) cast applied to scale * value: truncation toward zero of
the exact product (Int division in Lean is T-division, which truncates
toward zero; den is a positive power of ten). -/
def truncScaled (scale : Int) (p : Dec) : Int := scale * p.1 / (p.2 : Int)

/-- The C (int) cast of a real value: truncation toward zero. -/
def truncQ (q : ℚ) : Int := q.num / (q.den : Int)

/-- Round half up, ⌊(a / b) + 1/2⌋ with b positive, over integers (the
value Mathlib's round assigns to the rational a / b). -/
def roundScaled (a : Int) (b : Nat) : Int := Int.fdiv (2 * a + b) (2 * b)

/-- Decimal digits of a natural number, most significant first (printf %d);
fuel-based so that the kernel can evaluate it. -/
def natDigitsAux : Nat → Nat → List Char
  | 0, _ => []
  | fuel + 1, n =>
    if n < 10 then [Char.ofNat (48 + n)]
    else natDigitsAux fuel (n / 10) ++ [Char.ofNat (48 + n % 10)]

/-- Decimal rendering of a natural number (printf %d / %u). -/
def natStr (n : Nat) : String := String.mk (natDigitsAux (n + 1) n)

/-- Decimal rendering of an integer (printf %d). -/
def intStr (i : Int) : String :=
  (if i < 0 then "-" else "") ++ natStr i.natAbs

/-- The snprintf %.2f conversion of an exact decimal: the value rounded to
hundredths, printed with exactly two decimals. -/
def fmt2 (p : Dec) : String :=
  let c : Int := roundScaled (100 * p.1) p.2
  (if c < 0 then "-" else "") ++ natStr (c.natAbs / 100) ++ "." ++
    (if c.natAbs % 100 < 10 then "0" else "") ++ natStr (c.natAbs % 100)

/-- The snprintf %g conversion as used for inch dimensions a / b: plain
decimal with trailing zeros trimmed, modelled to four fractional digits
(the dimensions involved stay within %g's six significant digits). -/
def fmtG (a : Int) (b : Nat) : String :=
  let n : Nat := (roundScaled (10000 * a.natAbs) b).toNat
  let ip := n / 10000
  let fp := n % 10000
  (if a < 0 then "-" else "") ++ natStr ip ++
    (if fp = 0 then ""
     else "." ++ String.mk ((natDigitsAux 5 (10000 + fp)).drop 1
       |>.reverse.dropWhile (fun c => c = '0') |>.reverse))

/-! ### The canonical physical-size registry (CUPS pwgMediaForPWG) -/

/-- A pwg_media_t entry: PPD name and width/length in 1/2540-inch units. -/
structure PwgMedia where
  ppd : String
  width : Int
  length : Int
deriving DecidableEq, Repr

/-- Whether a character list starts with the given pattern (strncmp with
the pattern's length). -/
def startsChars : List Char → List Char → Bool
  | [], _ => true
  | _ :: _, [] => false
  | a :: as, b :: bs => a = b && startsChars as bs

/-- Whether a character list contains the given pattern (strstr succeeds). -/
def hasPat (pat : List Char) : List Char → Bool
  | [] => pat.isEmpty
  | c :: cs => startsChars pat (c :: cs) || hasPat pat cs

/-- Split a character list on a separator character (the components of a
PWG self-describing name). -/
def splitChars (sep : Char) : List Char → List (List Char)
  | [] => [[]]
  | c :: cs =>
    let r := splitChars sep cs
    if c = sep then [] :: r
    else
      match r with
      | h :: t => (c :: h) :: t
      | [] => [[c]]

/-- Parse the dimension component of a PWG self-describing size name,
"WxLin" or "WxLmm": inches scale by 2540, millimeters by 100 to reach the
internal 1/2540-inch units. -/
def parseDims (cs : List Char) : Option (Int × Int) :=
  match parseUDec cs with
  | none => none
  | some (w, rest) =>
    match rest with
    | 'x' :: rest2 =>
      match parseUDec rest2 with
      | none => none
      | some (l, rest3) =>
        if rest3 = ['i', 'n'] then some (truncScaled 2540 w, truncScaled 2540 l)
        else if rest3 = ['m', 'm'] then some (truncScaled 100 w, truncScaled 100 l)
        else none
    | _ => none

/-- Registered PWG names with their PPD aliases, restricted to the sizes the
localization mapper special-cases by PPD name. -/
def pwgTable : List (String × String × Int × Int) :=
  [("na_letter_8.5x11in", "Letter", 21590, 27940),
   ("na_legal_8.5x14in", "Legal", 21590, 35560),
   ("na_number-10_4.125x9.5in", "Env10", 10477, 24130),
   ("iso_a4_210x297mm", "A4", 21000, 29700),
   ("iso_a5_148x210mm", "A5", 14800, 21000),
   ("iso_a6_105x148mm", "A6", 10500, 14800),
   ("iso_dl_110x220mm", "EnvDL", 11000, 22000)]

/-- Modelled from the spec: the canonical size registry (CUPS library
function pwgMediaForPWG, whose source is outside this repository).  Per
spec sections 4.2-4.4 a keyword resolves to width/length in internal
1/2540-inch units: a registered name resolves through the table, any other
self-describing name "class_sizename_WxLunit" (at least three components)
resolves by parsing its final dimension component, and anything else fails
(C returns NULL, modelled as none). -/
def pwgMediaForPWG (s : String) : Option PwgMedia :=
  match pwgTable.find? (fun e => e.1 == s) with
  | some e => some ⟨e.2.1, e.2.2.1, e.2.2.2⟩
  | none =>
    let parts := splitChars '_' s.toList
    if parts.length < 3 then none
    else
      match parts.getLast? with
      | some dims => (parseDims dims).map (fun wl => ⟨"", wl.1, wl.2⟩)
      | none => none

/-! ### Keyword-to-flag enumeration tables

The _pappl*Value helpers live elsewhere in the pappl repository (not under
src/), so they are modelled from the spec: keyword lookup against the
ordered power-of-two flag tables of section 4.1; an unrecognized keyword
maps to the zero value. -/

/-- Modelled from the spec: _papplColorModeValue, keyword to color-mode
flag. -/
def colorModeValue (s : String) : Int :=
  if s = "auto" then 1 else if s = "auto-monochrome" then 2
  else if s = "bi-level" then 4 else if s = "color" then 8
  else if s = "monochrome" then 16 else if s = "process-monochrome" then 32
  else 0

/-- Modelled from the spec: _papplContentValue, keyword to
content-optimization flag. -/
def contentValue (s : String) : Int :=
  if s = "auto" then 1 else if s = "graphic" then 2
  else if s = "photo" then 4 else if s = "text" then 8
  else if s = "text-and-graphic" then 16 else 0

/-- Modelled from the spec: _papplScalingValue, keyword to scaling flag. -/
def scalingValue (s : String) : Int :=
  if s = "auto" then 1 else if s = "auto-fit" then 2
  else if s = "fill" then 4 else if s = "fit" then 8
  else if s = "none" then 16 else 0

/-- Modelled from the spec: _papplSidesValue, keyword to sides flag. -/
def sidesValue (s : String) : Int :=
  if s = "one-sided" then 1 else if s = "two-sided-long-edge" then 2
  else if s = "two-sided-short-edge" then 4 else 0

/-- Modelled from the spec: _papplMediaTrackingValue, keyword to tracking
flag; an unknown keyword yields the zero value, so the pre-reset slot value
is kept (the spec's "unknown keyword is a no-op"). -/
def mediaTrackingValue (s : String) : Int :=
  if s = "continuous" then 1 else if s = "mark" then 2
  else if s = "web" then 4 else 0

/-- Modelled from the spec: ippEnumValue("print-quality", s), the fixed
three-level IPP enumeration (draft 3 / normal 4 / high 5); -1 when the
keyword is unknown. -/
def qualityValue (s : String) : Int :=
  if s = "draft" then 3 else if s = "normal" then 4
  else if s = "high" then 5 else -1

/-! ### Scalar default decoding (_papplPrinterWebDefaults, POST branch) -/

/-- The sscanf(value, "%dx%ddpi", ...) conversion: first %d (whitespace,
optional sign, digits), the literal x, second %d.  The result reports which
of the two conversions were assigned; the trailing literal "dpi" cannot
change the assignment count and is not consulted. -/
def scanResolution (s : String) : Option Int × Option Int :=
  match scanInt s.toList with
  | none => (none, none)
  | some (x, rest) =>
    match rest with
    | 'x' :: rest2 =>
      match scanInt rest2 with
      | none => (some x, none)
      | some (y, _) => (some x, some y)
    | _ => (some x, none)

/-- Lines 301-305: both resolution defaults after decoding the
printer-resolution value: on two conversions both are taken from the value,
on exactly one conversion the y default is forced equal to x, on zero
conversions both keep their previous values. -/
def applyResolution (x0 y0 : Int) (value : String) : Int × Int :=
  match scanResolution value with
  | (none, _) => (x0, y0)
  | (some x, none) => (x, x)
  | (some x, some y) => (x, y)

/-- Lines 277-317: the scalar pass of the form decoder.  Each recognized
key, when present, overwrites its default with the parsed value; an absent
key keeps the previous value.  media-source matches the value against the
declared source names in order and on the first match copies that slot's
current ready-media value into the default media. -/
def decodeDefaults (d : DriverData) (f : Form) : DriverData :=
  let xy : Int × Int :=
    match f "printer-resolution" with
    | some v => applyResolution d.x_default d.y_default v
    | none => (d.x_default, d.y_default)
  { d with
    orient_default :=
      match f "orientation-requested" with
      | some v => atoiZ v
      | none => d.orient_default
    color_default :=
      match f "print-color-mode" with
      | some v => colorModeValue v
      | none => d.color_default
    content_default :=
      match f "print-content-optimize" with
      | some v => contentValue v
      | none => d.content_default
    darkness_configured :=
      match f "print-darkness" with
      | some v => atoiZ v
      | none => d.darkness_configured
    quality_default :=
      match f "print-quality" with
      | some v => qualityValue v
      | none => d.quality_default
    scaling_default :=
      match f "print-scaling" with
      | some v => scalingValue v
      | none => d.scaling_default
    speed_default :=
      match f "print-speed" with
      | some v => atoiZ v * 2540
      | none => d.speed_default
    sides_default :=
      match f "sides" with
      | some v => sidesValue v
      | none => d.sides_default
    x_default := xy.1
    y_default := xy.2
    media_default :=
      match f "media-source" with
      | some v =>
        match d.source.findIdx? (fun s => s == v) with
        | some i => d.media_ready.getD i zeroMediaCol
        | none => d.media_default
      | none => d.media_default }

/-! ### Ready-media decoding (_papplPrinterWebMedia, POST branch) -/

/-- The snprintf(name, ..., "ready%d-...", i) dynamic key builder. -/
def readyKey (i : Nat) (suffix : String) : String :=
  "ready" ++ natStr i ++ "-" ++ suffix

/-- Lines 810-866: decoding of one ready-media slot, starting from the
zeroed slot left by the memset.  When the size key is absent the loop
continues and the slot stays fully zeroed; otherwise a "custom" size reads
both custom dimensions (inches, scaled by 2540 and cast to int), any other
size keyword resolves through the size registry, the source name is always
the declared one, margins are zeroed when the borderless key is present and
otherwise set to the descriptor's fixed pair, and top-offset, tracking and
type are decoded when present. -/
def decodeSlot (f : Form) (bottom_top left_right : Int) (i : Nat) (src : String) : MediaCol :=
  match f (readyKey i "size") with
  | none => zeroMediaCol
  | some value =>
    let r1 : MediaCol :=
      if value = "custom" then
        match f (readyKey i "custom-width"), f (readyKey i "custom-length") with
        | some cw, some cl =>
          { zeroMediaCol with
            size_name := "custom_" ++ src ++ "_" ++ fmt2 (atofD cw) ++ "x" ++ fmt2 (atofD cl) ++ "in"
            size_width := truncScaled 2540 (atofD cw)
            size_length := truncScaled 2540 (atofD cl) }
        | _, _ => zeroMediaCol
      else
        match pwgMediaForPWG value with
        | some pwg =>
          { zeroMediaCol with
            size_name := value
            size_width := pwg.width
            size_length := pwg.length }
        | none => zeroMediaCol
    let r2 : MediaCol := { r1 with source := src }
    let r3 : MediaCol :=
      if (f (readyKey i "borderless")).isSome then
        { r2 with bottom_margin := 0, top_margin := 0, left_margin := 0, right_margin := 0 }
      else
        { r2 with bottom_margin := bottom_top, top_margin := bottom_top,
                  left_margin := left_right, right_margin := left_right }
    let r4 : MediaCol :=
      match f (readyKey i "top-offset") with
      | some v => { r3 with top_offset := truncScaled 100 (atofD v) }
      | none => r3
    let r5 : MediaCol :=
      match f (readyKey i "tracking") with
      | some v => { r4 with tracking := mediaTrackingValue v }
      | none => r4
    match f (readyKey i "type") with
    | some v => { r5 with type := v }
    | none => r5

/-- Lines 807-867: the full ready-media array after the memset reset and the
per-source decoding loop: one slot per declared source, in declaration
order. -/
def mediaReadyOf (srcs : List String) (bottom_top left_right : Int) (f : Form) : List MediaCol :=
  srcs.mapIdx (fun i s => decodeSlot f bottom_top left_right i s)

/-- The ready-media pass of the form decoder: all slots are reset and
rebuilt from the form alone. -/
def decodeMedia (d : DriverData) (f : Form) : DriverData :=
  { d with media_ready := mediaReadyOf d.source d.bottom_top d.left_right f }

/-- The combined form decoder of spec section 4.2: the scalar pass followed
by the ready-media second pass. -/
def decode (d : DriverData) (f : Form) : DriverData :=
  decodeMedia (decodeDefaults d f) f

/-! ### Status reason aggregation (_papplPrinterIteratorWebCallback) -/

/-- Lines 51-67: the parallel label array for the printer-state-reason
flags, in enumeration order (flag 2^i has label i). -/
def preasonLabels : List String :=
  ["Other", "Cover Open", "Tray Missing", "Out of Ink", "Low Ink",
   "Waste Tank Almost Full", "Waste Tank Full", "Media Empty", "Media Jam",
   "Media Low", "Media Needed", "Too Many Jobs", "Out of Toner", "Low Toner"]

/-- Lines 83-87: the aggregation loop, for (i = 0, reason = OTHER;
reason <= TONER_LOW; i ++, reason *= 2) appending reasons[i] whenever the
flag is present.  PAPPL_PREASON_OTHER is 1 and PAPPL_PREASON_TONER_LOW is
8192 = 2^13 (fourteen declared flags matching the fourteen labels); reason
stays a positive power of two, recorded in the guard as the loop variant. -/
def reasonsLoop (r : Nat) (i reason : Nat) : List String :=
  if _h : 0 < reason ∧ reason ≤ 8192 then
    (if r &&& reason ≠ 0 then [preasonLabels.getD i ""] else []) ++
      reasonsLoop r (i + 1) (reason * 2)
  else []
termination_by 16384 - reason
decreasing_by omega

/-- The ordered status-reason summary for a condition bitmask. -/
def statusReasonLabels (r : Nat) : List String :=
  reasonsLoop r 0 1

/-! ### Darkness option rendering (_papplPrinterWebDefaults, lines 415-426) -/

/-- The guard if (data.darkness_supported) around the darkness option
list. -/
def darknessGuard (d : Nat) : Bool := d ≠ 0

/-- The divisor of 100 * i / (data.darkness_supported - 1) for each loop
iteration i = 0 .. darkness_supported - 1 executed under the guard.  An
empty list means the division is never reached. -/
def darknessDivisors (d : Nat) : List Int :=
  if darknessGuard d then (List.range d).map (fun _ => (d : Int) - 1) else []

/-! ### Custom size range resolution (media_chooser, lines 1199-1261) -/

/-- Substring test (C strstr succeeds). -/
def hasInfixStr (pat s : String) : Bool := hasPat pat.toList s.toList

/-- An entry classified as the minimum sentinel: a custom_ or roll_ prefix
containing "_min_" (strncmp prefix tests as in lines 1201 and 1219). -/
def isMinSentinel (s : String) : Bool :=
  (startsChars "custom_".toList s.toList || startsChars "roll_".toList s.toList) &&
    hasInfixStr "_min_" s

/-- An entry classified as the maximum sentinel: a custom_ or roll_ prefix
containing "_max_" (the else-if gives "_min_" priority). -/
def isMaxSentinel (s : String) : Bool :=
  (startsChars "custom_".toList s.toList || startsChars "roll_".toList s.toList) &&
    !hasInfixStr "_min_" s && hasInfixStr "_max_" s

/-- Concrete custom-size bounds, in 1/2540-inch units. -/
structure SizeRange where
  min_width : Int
  min_length : Int
  max_width : Int
  max_length : Int
deriving DecidableEq, Repr

/-- Lines 1199-1261: the custom-range resolution of media_chooser.  The
scan keeps the last minimum and maximum sentinel entries (the rendering
loop overwrites min_size/max_size on every match before the bounds are
computed); the bounds block runs only when both are present, and each
sentinel whose keyword the registry cannot parse falls back to its
documented default: 1in x 1in minimum, 9in x 22in maximum. -/
def resolve_custom_range (media : List String) : Option SizeRange :=
  match (media.filter isMinSentinel).getLast?, (media.filter isMaxSentinel).getLast? with
  | some mn, some mx =>
    let lo : Int × Int :=
      match pwgMediaForPWG mn with
      | some p => (p.width, p.length)
      | none => (1 * 2540, 1 * 2540)
    let hi : Int × Int :=
      match pwgMediaForPWG mx with
      | some p => (p.width, p.length)
      | none => (9 * 2540, 22 * 2540)
    some ⟨lo.1, lo.2, hi.1, hi.2⟩
  | _, _ => none

/-! ### Keyword localization (localize_keyword, lines 1037-1138) -/

/-- Lines 1126-1134: the generic fallback, capitalize the first character,
then replace each hyphen that is followed by another character with a space
and capitalize that following character (the pointer skips past it). -/
def capHyAux : List Char → List Char
  | [] => []
  | '-' :: c :: rest => ' ' :: c.toUpper :: capHyAux rest
  | c :: rest => c :: capHyAux rest

/-- The generic keyword beautifier applied by the final else branch. -/
def capitalizeHyphens (s : String) : String :=
  match s.toList with
  | [] => ""
  | c :: rest => String.mk (c.toUpper :: capHyAux rest)

/-- Lines 1037-1138: the localization mapper.  Returns none exactly where
the C code's behavior is undefined: the media branch dereferences
pwgMediaForPWG's result without a NULL check, and the keyword
"photographic-" makes the snprintf read past the end of the string after
printing the terminating NUL through %c. -/
def localize_keyword (attrname keyword : String) : Option String :=
  if keyword = "bi-level" then some "B&W (no shading)"
  else if keyword = "monochrome" then some "B&W"
  else if keyword = "main-roll" then some "Main"
  else if keyword = "alternate-roll" then some "Alternate"
  else if keyword = "labels" then some "Cut Labels"
  else if keyword = "labels-continuous" then some "Continuous Labels"
  else if attrname = "media-type" ∧ keyword = "continuous" then some "Continuous Paper"
  else if keyword.toList.take 12 = "photographic".toList then
    match keyword.toList.drop 12 with
    | '-' :: c :: rest => some (String.mk (c.toUpper :: rest) ++ " Photo Paper")
    | '-' :: [] => none
    | _ => some "Photo Paper"
  else if keyword = "stationery" then some "Plain Paper"
  else if keyword = "stationery-letterhead" then some "Letterhead"
  else if keyword = "one-sided" then some "Off"
  else if keyword = "two-sided-long-edge" then some "On (Portrait)"
  else if keyword = "two-sided-short-edge" then some "On (Landscape)"
  else if attrname = "media" then
    match pwgMediaForPWG keyword with
    | none => none
    | some pwg =>
      if pwg.ppd = "Letter" then some "US Letter"
      else if pwg.ppd = "Legal" then some "US Legal"
      else if pwg.ppd = "Env10" then some "#10 Envelope"
      else if pwg.ppd = "A4" ∨ pwg.ppd = "A5" ∨ pwg.ppd = "A6" then some pwg.ppd
      else if pwg.ppd = "EnvDL" then some "DL Envelope"
      else if pwg.width % 100 = 0 ∧ pwg.width % 2540 ≠ 0 then
        some (intStr (pwg.width / 100) ++ " x " ++ intStr (pwg.length / 100) ++ "mm")
      else
        some (fmtG pwg.width 2540 ++ " x " ++ fmtG pwg.length 2540 ++ "\"")
  else some (capitalizeHyphens keyword)

/-- The keywords caught by an exact strcmp before the media branch is
reached. -/
def exactCasedKeywords : List String :=
  ["bi-level", "monochrome", "main-roll", "alternate-roll", "labels",
   "labels-continuous", "stationery", "stationery-letterhead", "one-sided",
   "two-sided-long-edge", "two-sided-short-edge"]

/-- A keyword that falls through every branch before the media-attribute
registry lookup. -/
def notSpecialCased (kw : String) : Prop :=
  kw ∉ exactCasedKeywords ∧ kw.toList.take 12 ≠ "photographic".toList

instance (kw : String) : Decidable (notSpecialCased kw) := by
  unfold notSpecialCased; infer_instance

/-! ### Concrete inputs used by the verification theorems -/

/-- A stale slot, standing for prior ready-media state that the reset must
clear. -/
def staleSlot : MediaCol :=
  { size_name := "stale", size_width := 999, size_length := 888,
    bottom_margin := 1, left_margin := 2, right_margin := 3, top_margin := 4,
    left_offset := 5, top_offset := 77, tracking := 2, source := "tray-9",
    type := "stale-type" }

/-- A two-source descriptor with nonzero fixed margins and stale slots. -/
def dTwoTrays : DriverData :=
  { source := ["tray-1", "tray-2"], media_ready := [staleSlot, staleSlot],
    media_default := staleSlot, bottom_top := 635, left_right := 423,
    orient_default := 3, color_default := 1, content_default := 1,
    darkness_configured := 0, quality_default := 4, scaling_default := 1,
    speed_default := 0, sides_default := 1, x_default := 300, y_default := 300 }

/-- A one-source descriptor with nonzero fixed margins and a stale slot. -/
def dOneTray : DriverData :=
  { dTwoTrays with source := ["tray-1"], media_ready := [staleSlot] }

/-- A form supplying only ready0-size=na_letter_8.5x11in. -/
def fLetterOnly : Form :=
  fun k => if k = "ready0-size" then some "na_letter_8.5x11in" else none

/-- A form setting media-source together with new ready media for the
matched source. -/
def fSourceAndSize : Form :=
  fun k =>
    if k = "media-source" then some "tray-1"
    else if k = "ready0-size" then some "na_letter_8.5x11in" else none

/-- A custom-size form with width 8.27 inches (exact value 21005.8 internal
units, separating truncation from rounding). -/
def fCustom827 : Form :=
  fun k =>
    if k = "ready0-size" then some "custom"
    else if k = "ready0-custom-width" then some "8.27"
    else if k = "ready0-custom-length" then some "6.00" else none

/-- The spec's custom-size example form: 4.00 x 6.00 inches. -/
def fCustom400 : Form :=
  fun k =>
    if k = "ready0-size" then some "custom"
    else if k = "ready0-custom-width" then some "4.00"
    else if k = "ready0-custom-length" then some "6.00" else none

/-- The empty form: every key omitted. -/
def fEmpty : Form := fun _ => none

/-- A borderless ready-media form for slot 0. -/
def fBorderless : Form :=
  fun k =>
    if k = "ready0-size" then some "na_letter_8.5x11in"
    else if k = "ready0-borderless" then some "checked" else none

/-- A defaults form supplying printer-resolution=300dpi (one conversion:
the literal x fails to match at the letter d). -/
def fRes300 : Form :=
  fun k => if k = "printer-resolution" then some "300dpi" else none

/-- A defaults form supplying printer-resolution=600x300dpi (two
conversions). -/
def fRes600x300 : Form :=
  fun k => if k = "printer-resolution" then some "600x300dpi" else none

/-! ### Helper lemmas -/

/-- String append acts on the underlying character lists. -/
theorem strData_append (s t : String) : (s ++ t).data = s.data ++ t.data := by
  cases s; cases t; rfl

/-- A string is empty exactly when its character list is. -/
theorem strEmpty_iff (s : String) : s = "" ↔ s.data = [] := by
  constructor
  · intro h; rw [h]
  · intro h; apply String.ext; rw [h]

/-- Appending a non-empty string on the right yields a non-empty string. -/
theorem appendNeEmptyRight (s t : String) (h : t ≠ "") : s ++ t ≠ "" := by
  intro he
  rw [strEmpty_iff, strData_append, List.append_eq_nil] at he
  exact h ((strEmpty_iff t).2 he.2)

/-- The generic beautifier never empties a non-empty keyword. -/
theorem capitalizeHyphens_ne_empty (s : String) (h : s ≠ "") :
    capitalizeHyphens s ≠ "" := by
  rw [capitalizeHyphens]
  rcases hd : s.toList with _ | ⟨c, rest⟩
  · exact absurd ((strEmpty_iff s).2 hd) h
  · intro he
    have := (strEmpty_iff _).1 he
    simp at this

/-! ### C1: ready-media reset and letter-size decoding -/

/-- C1 (counterexample): with sources tray-1/tray-2 and a form supplying
only ready0-size=na_letter_8.5x11in, the tray-1 slot decodes to width 21590
and length 27940 (8.5in and 11in scaled by 2540), not width 2550 and length
3300 as the claim states. -/
theorem C1_counterexample :
    ((decodeMedia dTwoTrays fLetterOnly).media_ready.getD 0 zeroMediaCol).size_width = 21590 ∧
    ((decodeMedia dTwoTrays fLetterOnly).media_ready.getD 0 zeroMediaCol).size_length = 27940 ∧
    ¬ (((decodeMedia dTwoTrays fLetterOnly).media_ready.getD 0 zeroMediaCol).size_width = 2550 ∧
       ((decodeMedia dTwoTrays fLetterOnly).media_ready.getD 0 zeroMediaCol).size_length = 3300) := by
  decide

/-- C1 (amended): for the descriptor declaring sources tray-1 and tray-2,
both holding stale nonzero slots, and the form containing only
ready0-size=na_letter_8.5x11in, ready-media decoding resets every slot and
produces the fully zero-valued slot for tray-2 (zero width, length and
offsets, empty type and zero tracking) and a tray-1 slot with width 21590
and length 27940 (8.5in and 11in scaled by 2540), the declared source name
and the descriptor's fixed margins. -/
theorem C1_ready_media_reset :
    (decodeMedia dTwoTrays fLetterOnly).media_ready =
      [{ zeroMediaCol with
          size_name := "na_letter_8.5x11in"
          size_width := 21590
          size_length := 27940
          source := "tray-1"
          bottom_margin := 635
          top_margin := 635
          left_margin := 423
          right_margin := 423 },
       zeroMediaCol] := by
  decide

/-! ### C9: darkness percentage division -/

/-- C9: in the darkness option loop the divisor of
100 * i / (darkness_supported - 1) is nonzero for every descriptor with
darkness_supported at least 2, but darkness_supported = 1 passes the
if (data.darkness_supported) guard and reaches a zero divisor. -/
theorem C9_darkness_guard :
    (∀ d : Nat, 2 ≤ d → ∀ x ∈ darknessDivisors d, x ≠ 0) ∧
    darknessGuard 1 = true ∧ (0 : Int) ∈ darknessDivisors 1 := by
  refine ⟨?_, by decide, by decide⟩
  intro d hd x hx
  have hg : darknessGuard d = true := by
    simp only [darknessGuard]; simp; omega
  rw [darknessDivisors, hg] at hx
  simp only [if_true, List.mem_map, List.mem_range] at hx
  obtain ⟨a, -, ha⟩ := hx
  omega

/-- C9 (witness): the general part applied at darkness_supported = 5, whose
divisor 4 is nonzero. -/
theorem C9_witness : (4 : Int) ≠ 0 :=
  C9_darkness_guard.1 5 (by norm_num) 4 (by decide)

/-! ### C5: custom size decoding -/

/-- C5 (counterexample): the C code truncates (int)(2540.0 * atof(value)),
it does not round: for custom width 8.27 the decoded slot width is 21005
while round(2540 * 8.27) = round(21005.8) = 21006. -/
theorem C5_counterexample :
    (((decodeMedia dOneTray fCustom827).media_ready.getD 0 zeroMediaCol).size_width ≠
      round ((2540 : ℚ) * atofQ "8.27")) ∧
    ((decodeMedia dOneTray fCustom827).media_ready.getD 0 zeroMediaCol).size_width = 21005 ∧
    round ((2540 : ℚ) * atofQ "8.27") = 21006 := by
  have hv : atofD "8.27" = ((827 : Int), (100 : Nat)) := by decide
  have hw : ((decodeMedia dOneTray fCustom827).media_ready.getD 0 zeroMediaCol).size_width = 21005 := by
    decide
  have hr : round ((2540 : ℚ) * atofQ "8.27") = 21006 := by
    rw [atofQ, hv, decValQ]
    norm_num [round_eq]
  refine ⟨?_, hw, hr⟩
  rw [hw, hr]
  decide

/-- C5 (amended): when a slot's size value is the keyword custom and both
custom dimensions are present, width and length are the truncation toward
zero of 2540 times the exact decimal value (not the rounding); in
particular width 4.00 and length 6.00 produce 10160 and 15240. -/
theorem C5_custom_size_trunc :
    (∀ (f : Form) (bt lr : Int) (i : Nat) (src cw cl : String),
      f (readyKey i "size") = some "custom" →
      f (readyKey i "custom-width") = some cw →
      f (readyKey i "custom-length") = some cl →
      (decodeSlot f bt lr i src).size_width = truncScaled 2540 (atofD cw) ∧
      (decodeSlot f bt lr i src).size_length = truncScaled 2540 (atofD cl)) ∧
    ((decodeMedia dOneTray fCustom400).media_ready.getD 0 zeroMediaCol).size_width = 10160 ∧
    ((decodeMedia dOneTray fCustom400).media_ready.getD 0 zeroMediaCol).size_length = 15240 := by
  refine ⟨?_, by decide, by decide⟩
  intro f bt lr i src cw cl hs hw hl
  simp only [decodeSlot, hs, hw, hl, if_pos rfl]
  constructor <;>
  · split <;> split <;> split <;> split <;> rfl

/-- C5 (witness): the general truncation statement applied to the 4.00 x
6.00 form. -/
theorem C5_witness :
    (decodeSlot fCustom400 635 423 0 "tray-1").size_width = truncScaled 2540 (atofD "4.00") ∧
    (decodeSlot fCustom400 635 423 0 "tray-1").size_length = truncScaled 2540 (atofD "6.00") :=
  C5_custom_size_trunc.1 fCustom400 635 423 0 "tray-1" "4.00" "6.00"
    (by decide) (by decide) (by decide)

/-! ### C6: margin invariant -/

/-- C6 (counterexample): a slot whose ready0-size key is absent is skipped
by the decoding loop and keeps its reset all-zero margins even though
ready0-borderless is also absent, so with the descriptor's nonzero fixed
margins the claim's key-absent case (margins equal to the fixed pair) fails. -/
theorem C6_counterexample :
    fEmpty "ready0-borderless" = none ∧
    dOneTray.bottom_top = 635 ∧ dOneTray.left_right = 423 ∧
    ((decodeMedia dOneTray fEmpty).media_ready.getD 0 zeroMediaCol).bottom_margin = 0 ∧
    ¬ (((decodeMedia dOneTray fEmpty).media_ready.getD 0 zeroMediaCol).bottom_margin = dOneTray.bottom_top ∧
       ((decodeMedia dOneTray fEmpty).media_ready.getD 0 zeroMediaCol).top_margin = dOneTray.bottom_top ∧
       ((decodeMedia dOneTray fEmpty).media_ready.getD 0 zeroMediaCol).left_margin = dOneTray.left_right ∧
       ((decodeMedia dOneTray fEmpty).media_ready.getD 0 zeroMediaCol).right_margin = dOneTray.left_right) := by
  decide

/-- C6 (amended): after ready-media decoding every slot's margins are
either all zero or all equal to the descriptor's fixed bottom/top and
left/right pair; for a slot whose size key is present, the borderless key
being present gives the all-zero margins and its absence gives the fixed
pair, while a slot whose size key is absent stays fully zeroed (all-zero
margins even without the borderless key). -/
theorem C6_margins (f : Form) (bt lr : Int) (i : Nat) (src : String) :
    (f (readyKey i "size") = none → decodeSlot f bt lr i src = zeroMediaCol) ∧
    ((f (readyKey i "size")).isSome →
      (((f (readyKey i "borderless")).isSome →
        (decodeSlot f bt lr i src).bottom_margin = 0 ∧
        (decodeSlot f bt lr i src).top_margin = 0 ∧
        (decodeSlot f bt lr i src).left_margin = 0 ∧
        (decodeSlot f bt lr i src).right_margin = 0) ∧
       (f (readyKey i "borderless") = none →
        (decodeSlot f bt lr i src).bottom_margin = bt ∧
        (decodeSlot f bt lr i src).top_margin = bt ∧
        (decodeSlot f bt lr i src).left_margin = lr ∧
        (decodeSlot f bt lr i src).right_margin = lr))) ∧
    (((decodeSlot f bt lr i src).bottom_margin = 0 ∧
      (decodeSlot f bt lr i src).top_margin = 0 ∧
      (decodeSlot f bt lr i src).left_margin = 0 ∧
      (decodeSlot f bt lr i src).right_margin = 0) ∨
     ((decodeSlot f bt lr i src).bottom_margin = bt ∧
      (decodeSlot f bt lr i src).top_margin = bt ∧
      (decodeSlot f bt lr i src).left_margin = lr ∧
      (decodeSlot f bt lr i src).right_margin = lr)) := by
  rcases hs : f (readyKey i "size") with _ | v
  · refine ⟨fun _ => by simp [decodeSlot, hs], by simp [hs], ?_⟩
    left
    simp [decodeSlot, hs, zeroMediaCol]
  · rcases hb : f (readyKey i "borderless") with _ | b
    · refine ⟨by simp [hs], fun _ => ⟨by simp [hb], fun _ => ?_⟩, ?_⟩
      · simp only [decodeSlot, hs, hb]
        refine ⟨?_, ?_, ?_, ?_⟩ <;>
        · split <;> split <;> split <;> split <;> simp_all
      · right
        simp only [decodeSlot, hs, hb]
        refine ⟨?_, ?_, ?_, ?_⟩ <;>
        · split <;> split <;> split <;> split <;> simp_all
    · refine ⟨by simp [hs], fun _ => ⟨fun _ => ?_, by simp [hb]⟩, ?_⟩
      · simp only [decodeSlot, hs, hb]
        refine ⟨?_, ?_, ?_, ?_⟩ <;>
        · split <;> split <;> split <;> split <;> simp_all
      · left
        simp only [decodeSlot, hs, hb]
        refine ⟨?_, ?_, ?_, ?_⟩ <;>
        · split <;> split <;> split <;> split <;> simp_all

/-- C6 (witness): the amended statement applied to the borderless letter
form, whose slot has all-zero margins. -/
theorem C6_witness :
    (decodeSlot fBorderless 635 423 0 "tray-1").bottom_margin = 0 ∧
    (decodeSlot fBorderless 635 423 0 "tray-1").top_margin = 0 ∧
    (decodeSlot fBorderless 635 423 0 "tray-1").left_margin = 0 ∧
    (decodeSlot fBorderless 635 423 0 "tray-1").right_margin = 0 :=
  ((C6_margins fBorderless 635 423 0 "tray-1").2.1 (by decide)).1 (by decide)

/-! ### C3: printer-resolution decoding -/

/-- C3: when the printer-resolution value is matched against the pattern
"%dx%ddpi", exactly one converted value sets both defaults to the captured
x, and two converted values set the x and y defaults to the two captured
values. -/
theorem C3_resolution_capture (d : DriverData) (f : Form) (s : String)
    (hf : f "printer-resolution" = some s) :
    (∀ x : Int, scanResolution s = (some x, none) →
      (decodeDefaults d f).x_default = x ∧ (decodeDefaults d f).y_default = x) ∧
    (∀ x y : Int, scanResolution s = (some x, some y) →
      (decodeDefaults d f).x_default = x ∧ (decodeDefaults d f).y_default = y) := by
  constructor
  · intro x hs
    simp [decodeDefaults, hf, applyResolution, hs]
  · intro x y hs
    simp [decodeDefaults, hf, applyResolution, hs]

/-- C3 (witness): applied to the one-conversion value 300dpi, both
defaults become 300. -/
theorem C3_witness :
    (decodeDefaults dOneTray fRes300).x_default = 300 ∧
    (decodeDefaults dOneTray fRes300).y_default = 300 :=
  (C3_resolution_capture dOneTray fRes300 "300dpi" (by decide)).1 300 (by decide)

/-! ### C7: custom-size range resolution -/

/-- C7: the resolver yields no range when the declared size list has no
minimum/maximum sentinel pair, and when both sentinels are present but
neither keyword parses in the registry it yields the documented fallback
bounds, width 1in to 9in and length 1in to 22in (2540 to 22860 and 2540 to
55880 internal units). -/
theorem C7_resolver :
    (∀ media : List String,
      ¬ ((∃ s ∈ media, isMinSentinel s) ∧ (∃ s ∈ media, isMaxSentinel s)) →
      resolve_custom_range media = none) ∧
    (∀ (media : List String) (mn mx : String),
      (media.filter isMinSentinel).getLast? = some mn →
      (media.filter isMaxSentinel).getLast? = some mx →
      pwgMediaForPWG mn = none → pwgMediaForPWG mx = none →
      resolve_custom_range media = some ⟨2540, 2540, 22860, 55880⟩) := by
  constructor
  · intro media h
    rw [not_and_or] at h
    rcases h with h | h
    · have hfil : media.filter isMinSentinel = [] := by
        rw [List.filter_eq_nil_iff]
        intro a ha hp
        exact h ⟨a, ha, hp⟩
      simp [resolve_custom_range, hfil]
    · have hfil : media.filter isMaxSentinel = [] := by
        rw [List.filter_eq_nil_iff]
        intro a ha hp
        exact h ⟨a, ha, hp⟩
      rcases hmn : (media.filter isMinSentinel).getLast? with _ | mn <;>
        simp [resolve_custom_range, hmn, hfil]
  · intro media mn mx hmn hmx hpn hpx
    rw [resolve_custom_range, hmn, hmx]
    simp [hpn, hpx]

/-- C7 (witness): a list with no sentinels resolves to no range, and a list
whose two sentinel keywords are unparseable resolves to the fallback
bounds. -/
theorem C7_witness :
    resolve_custom_range ["na_letter_8.5x11in"] = none ∧
    resolve_custom_range ["custom_min_bogus", "custom_max_bogus", "na_letter_8.5x11in"] =
      some ⟨2540, 2540, 22860, 55880⟩ :=
  ⟨C7_resolver.1 ["na_letter_8.5x11in"] (by decide),
   C7_resolver.2 ["custom_min_bogus", "custom_max_bogus", "na_letter_8.5x11in"]
     "custom_min_bogus" "custom_max_bogus" (by decide) (by decide) (by decide) (by decide)⟩

/-! ### C10: the media-attribute registry lookup has no fallback -/

/-- C10: for the media attribute, a keyword matched by none of the
special-cased branches goes straight to the size-registry lookup, whose
result the C code dereferences without a NULL check: when the lookup fails
the mapper has no defined result (no fallback to the generic capitalization
path, modelled as none), and when the keyword is registered the result is
well-defined. -/
theorem C10_media_lookup :
    (∀ kw : String, notSpecialCased kw → pwgMediaForPWG kw = none →
      localize_keyword "media" kw = none) ∧
    (∀ (kw : String) (m : PwgMedia), notSpecialCased kw → pwgMediaForPWG kw = some m →
      (localize_keyword "media" kw).isSome) := by
  have hmem : ∀ kw : String, kw ∉ exactCasedKeywords →
      kw ≠ "bi-level" ∧ kw ≠ "monochrome" ∧ kw ≠ "main-roll" ∧ kw ≠ "alternate-roll" ∧
      kw ≠ "labels" ∧ kw ≠ "labels-continuous" ∧ kw ≠ "stationery" ∧
      kw ≠ "stationery-letterhead" ∧ kw ≠ "one-sided" ∧ kw ≠ "two-sided-long-edge" ∧
      kw ≠ "two-sided-short-edge" := by
    intro kw h
    simp only [exactCasedKeywords, List.mem_cons, List.not_mem_nil, or_false, not_or] at h
    exact h
  constructor
  · intro kw hn hl
    obtain ⟨hin, hph⟩ := hn
    obtain ⟨h1, h2, h3, h4, h5, h6, h7, h8, h9, h10, h11⟩ := hmem kw hin
    have hph2 : List.take 12 kw.data ≠
        ['p', 'h', 'o', 't', 'o', 'g', 'r', 'a', 'p', 'h', 'i', 'c'] := by
      simpa using hph
    simp [localize_keyword, h1, h2, h3, h4, h5, h6, h7, h8, h9, h10, h11, hph2, hl]
  · intro kw m hn hl
    obtain ⟨hin, hph⟩ := hn
    obtain ⟨h1, h2, h3, h4, h5, h6, h7, h8, h9, h10, h11⟩ := hmem kw hin
    have hph2 : List.take 12 kw.data ≠
        ['p', 'h', 'o', 't', 'o', 'g', 'r', 'a', 'p', 'h', 'i', 'c'] := by
      simpa using hph
    simp only [localize_keyword, h1, h2, h3, h4, h5, h6, h7, h8, h9, h10, h11, hph2, hl,
      if_neg, if_false]
    split_ifs <;> simp

/-- C10 (witness): the unregistered keyword not-a-size under the media
attribute has no defined localization. -/
theorem C10_witness : localize_keyword "media" "not-a-size" = none :=
  C10_media_lookup.1 "not-a-size" (by decide) (by decide)

/-! ### C8: localization labels -/

/-- C8 (counterexample): the empty keyword falls through to the generic
capitalization path, which returns the empty label, contradicting the claim
that no input (including the empty keyword) yields an empty label. -/
theorem C8_counterexample : localize_keyword "media-type" "" = some "" := by
  decide

set_option maxHeartbeats 1600000 in
/-- C8 (amended): a non-empty keyword never yields an empty label; the
mapper is total for every attribute other than media except at the keyword
"photographic-" (whose snprintf behavior is undefined); and the three
concrete vectors hold.  (The media attribute needs the registry lookup to
succeed, per the C10 theorem, and the empty keyword yields the empty label,
per the counterexample.) -/
theorem C8_localize_amended :
    (∀ attr kw l : String, kw ≠ "" → localize_keyword attr kw = some l → l ≠ "") ∧
    (∀ attr kw : String, attr ≠ "media" → kw ≠ "photographic-" →
      (localize_keyword attr kw).isSome) ∧
    localize_keyword "media-type" "stationery" = some "Plain Paper" ∧
    localize_keyword "sides" "two-sided-short-edge" = some "On (Landscape)" ∧
    localize_keyword "media-type" "unknown-keyword" = some "Unknown Keyword" := by
  refine ⟨?_, ?_, by decide, by decide, by decide⟩
  · intro attr kw l hkw hsome
    rw [localize_keyword] at hsome
    by_cases hc1 : kw = "bi-level"
    · rw [if_pos hc1] at hsome
      obtain rfl := Option.some.inj hsome; decide
    rw [if_neg hc1] at hsome
    by_cases hc2 : kw = "monochrome"
    · rw [if_pos hc2] at hsome
      obtain rfl := Option.some.inj hsome; decide
    rw [if_neg hc2] at hsome
    by_cases hc3 : kw = "main-roll"
    · rw [if_pos hc3] at hsome
      obtain rfl := Option.some.inj hsome; decide
    rw [if_neg hc3] at hsome
    by_cases hc4 : kw = "alternate-roll"
    · rw [if_pos hc4] at hsome
      obtain rfl := Option.some.inj hsome; decide
    rw [if_neg hc4] at hsome
    by_cases hc5 : kw = "labels"
    · rw [if_pos hc5] at hsome
      obtain rfl := Option.some.inj hsome; decide
    rw [if_neg hc5] at hsome
    by_cases hc6 : kw = "labels-continuous"
    · rw [if_pos hc6] at hsome
      obtain rfl := Option.some.inj hsome; decide
    rw [if_neg hc6] at hsome
    by_cases hc7 : attr = "media-type" ∧ kw = "continuous"
    · rw [if_pos hc7] at hsome
      obtain rfl := Option.some.inj hsome; decide
    rw [if_neg hc7] at hsome
    by_cases hc8 : kw.toList.take 12 = "photographic".toList
    · rw [if_pos hc8] at hsome
      rcases hdrop : kw.toList.drop 12 with _ | ⟨c0, rest⟩ <;> rw [hdrop] at hsome
      · obtain rfl := Option.some.inj hsome; decide
      · rcases rest with _ | ⟨c1, rest2⟩
        · split at hsome
          · rename_i heq; simp at heq
          · exact Option.noConfusion hsome
          · obtain rfl := Option.some.inj hsome; decide
        · split at hsome
          · obtain rfl := Option.some.inj hsome
            exact appendNeEmptyRight _ _ (by decide)
          · rename_i heq; simp at heq
          · obtain rfl := Option.some.inj hsome; decide
    rw [if_neg hc8] at hsome
    by_cases hc9 : kw = "stationery"
    · rw [if_pos hc9] at hsome
      obtain rfl := Option.some.inj hsome; decide
    rw [if_neg hc9] at hsome
    by_cases hc10 : kw = "stationery-letterhead"
    · rw [if_pos hc10] at hsome
      obtain rfl := Option.some.inj hsome; decide
    rw [if_neg hc10] at hsome
    by_cases hc11 : kw = "one-sided"
    · rw [if_pos hc11] at hsome
      obtain rfl := Option.some.inj hsome; decide
    rw [if_neg hc11] at hsome
    by_cases hc12 : kw = "two-sided-long-edge"
    · rw [if_pos hc12] at hsome
      obtain rfl := Option.some.inj hsome; decide
    rw [if_neg hc12] at hsome
    by_cases hc13 : kw = "two-sided-short-edge"
    · rw [if_pos hc13] at hsome
      obtain rfl := Option.some.inj hsome; decide
    rw [if_neg hc13] at hsome
    by_cases hc14 : attr = "media"
    · rw [if_pos hc14] at hsome
      split at hsome
      · exact Option.noConfusion hsome
      · rename_i pwg heq
        by_cases hd1 : pwg.ppd = "Letter"
        · rw [if_pos hd1] at hsome
          obtain rfl := Option.some.inj hsome; decide
        rw [if_neg hd1] at hsome
        by_cases hd2 : pwg.ppd = "Legal"
        · rw [if_pos hd2] at hsome
          obtain rfl := Option.some.inj hsome; decide
        rw [if_neg hd2] at hsome
        by_cases hd3 : pwg.ppd = "Env10"
        · rw [if_pos hd3] at hsome
          obtain rfl := Option.some.inj hsome; decide
        rw [if_neg hd3] at hsome
        by_cases hd4 : pwg.ppd = "A4" ∨ pwg.ppd = "A5" ∨ pwg.ppd = "A6"
        · rw [if_pos hd4] at hsome
          obtain rfl := Option.some.inj hsome
          rcases hd4 with h | h | h <;> rw [h] <;> decide
        rw [if_neg hd4] at hsome
        by_cases hd5 : pwg.ppd = "EnvDL"
        · rw [if_pos hd5] at hsome
          obtain rfl := Option.some.inj hsome; decide
        rw [if_neg hd5] at hsome
        by_cases hd6 : pwg.width % 100 = 0 ∧ pwg.width % 2540 ≠ 0
        · rw [if_pos hd6] at hsome
          obtain rfl := Option.some.inj hsome
          exact appendNeEmptyRight _ _ (by decide)
        · rw [if_neg hd6] at hsome
          obtain rfl := Option.some.inj hsome
          exact appendNeEmptyRight _ _ (by decide)
    · rw [if_neg hc14] at hsome
      obtain rfl := Option.some.inj hsome
      exact capitalizeHyphens_ne_empty kw hkw
  · intro attr kw hattr hph
    rw [localize_keyword]
    by_cases hc1 : kw = "bi-level"
    · rw [if_pos hc1]; rfl
    rw [if_neg hc1]
    by_cases hc2 : kw = "monochrome"
    · rw [if_pos hc2]; rfl
    rw [if_neg hc2]
    by_cases hc3 : kw = "main-roll"
    · rw [if_pos hc3]; rfl
    rw [if_neg hc3]
    by_cases hc4 : kw = "alternate-roll"
    · rw [if_pos hc4]; rfl
    rw [if_neg hc4]
    by_cases hc5 : kw = "labels"
    · rw [if_pos hc5]; rfl
    rw [if_neg hc5]
    by_cases hc6 : kw = "labels-continuous"
    · rw [if_pos hc6]; rfl
    rw [if_neg hc6]
    by_cases hc7 : attr = "media-type" ∧ kw = "continuous"
    · rw [if_pos hc7]; rfl
    rw [if_neg hc7]
    by_cases hc8 : kw.toList.take 12 = "photographic".toList
    · rw [if_pos hc8]
      rcases hdrop : kw.toList.drop 12 with _ | ⟨c0, rest⟩
      · rfl
      · rcases rest with _ | ⟨c1, rest2⟩
        · split
          · rename_i heq; simp at heq
          · rename_i heq
            simp at heq
            subst heq
            exfalso
            apply hph
            apply String.ext
            show kw.toList = "photographic-".toList
            rw [← List.take_append_drop 12 kw.toList, hc8, hdrop]
            decide
          · rfl
        · split
          · rfl
          · rename_i heq; simp at heq
          · rfl
    rw [if_neg hc8]
    by_cases hc9 : kw = "stationery"
    · rw [if_pos hc9]; rfl
    rw [if_neg hc9]
    by_cases hc10 : kw = "stationery-letterhead"
    · rw [if_pos hc10]; rfl
    rw [if_neg hc10]
    by_cases hc11 : kw = "one-sided"
    · rw [if_pos hc11]; rfl
    rw [if_neg hc11]
    by_cases hc12 : kw = "two-sided-long-edge"
    · rw [if_pos hc12]; rfl
    rw [if_neg hc12]
    by_cases hc13 : kw = "two-sided-short-edge"
    · rw [if_pos hc13]; rfl
    rw [if_neg hc13]
    rw [if_neg hattr]
    rfl

/-- C8 (witness): the non-emptiness statement applied at the
media-type/stationery vector. -/
theorem C8_witness : ("Plain Paper" : String) ≠ "" :=
  C8_localize_amended.1 "media-type" "stationery" "Plain Paper" (by decide) (by decide)

/-! ### C4: status reason aggregation -/

/-- C4: for every condition bitmask the summary lists exactly the labels of
the flags present, in ascending flag order (bit i, flag 2^i, for the
fourteen declared flags), and no label of an absent flag: the doubling loop
equals the ordered filter over the label table. -/
theorem C4_status_reasons (r : Nat) :
    statusReasonLabels r =
      (List.range preasonLabels.length).filterMap
        (fun i => if r.testBit i then some (preasonLabels.getD i "") else none) := by
  have hbit : ∀ i : Nat, (r &&& 2 ^ i ≠ 0) = (r.testBit i = true) := by
    intro i
    rw [Nat.and_two_pow]
    cases h : r.testBit i <;> simp [h]
  have general : ∀ k i : Nat, i + k = 14 →
      reasonsLoop r i (2 ^ i) =
        ((List.range' i k).filterMap
          fun j => if r.testBit j then some (preasonLabels.getD j "") else none) := by
    intro k
    induction k with
    | zero =>
      intro i hi
      obtain rfl : i = 14 := by omega
      rw [reasonsLoop]
      norm_num
    | succ n ih =>
      intro i hi
      have h1 : 0 < 2 ^ i := Nat.two_pow_pos i
      have h2 : 2 ^ i ≤ 8192 := by
        calc 2 ^ i ≤ 2 ^ 13 := Nat.pow_le_pow_right (by norm_num) (by omega)
        _ = 8192 := by norm_num
      rw [reasonsLoop, dif_pos ⟨h1, h2⟩]
      have hm : 2 ^ i * 2 = 2 ^ (i + 1) := by ring
      rw [hm, ih (i + 1) (by omega), List.range'_succ, List.filterMap_cons]
      by_cases h : r.testBit i
      · have h' : r &&& 2 ^ i ≠ 0 := by rw [hbit i]; exact h
        simp [h, h']
      · have h' : ¬ (r &&& 2 ^ i ≠ 0) := by rw [hbit i]; simpa using h
        simp [h, h']
  have h0 : statusReasonLabels r = reasonsLoop r 0 (2 ^ 0) := rfl
  rw [h0, general 14 0 (by norm_num)]
  rw [show preasonLabels.length = 14 from rfl, List.range_eq_range']

/-! ### C2: idempotence of decoding -/

/-- The decoder leaves the declared sources unchanged. -/
theorem decode_source (d : DriverData) (f : Form) : (decode d f).source = d.source := rfl

/-- The decoder leaves the fixed bottom/top margin unchanged. -/
theorem decode_bottom_top (d : DriverData) (f : Form) :
    (decode d f).bottom_top = d.bottom_top := rfl

/-- The decoder leaves the fixed left/right margin unchanged. -/
theorem decode_left_right (d : DriverData) (f : Form) :
    (decode d f).left_right = d.left_right := rfl

/-- The decoded ready media depends only on the sources, the fixed margins
and the form. -/
theorem decode_media_ready (d : DriverData) (f : Form) :
    (decode d f).media_ready = mediaReadyOf d.source d.bottom_top d.left_right f := rfl

/-- The decoded orientation default. -/
theorem decode_orient (d : DriverData) (f : Form) :
    (decode d f).orient_default =
      (match f "orientation-requested" with
       | some v => atoiZ v
       | none => d.orient_default) := rfl

/-- The decoded color-mode default. -/
theorem decode_color (d : DriverData) (f : Form) :
    (decode d f).color_default =
      (match f "print-color-mode" with
       | some v => colorModeValue v
       | none => d.color_default) := rfl

/-- The decoded content-optimization default. -/
theorem decode_content (d : DriverData) (f : Form) :
    (decode d f).content_default =
      (match f "print-content-optimize" with
       | some v => contentValue v
       | none => d.content_default) := rfl

/-- The decoded darkness value. -/
theorem decode_darkness (d : DriverData) (f : Form) :
    (decode d f).darkness_configured =
      (match f "print-darkness" with
       | some v => atoiZ v
       | none => d.darkness_configured) := rfl

/-- The decoded quality default. -/
theorem decode_quality (d : DriverData) (f : Form) :
    (decode d f).quality_default =
      (match f "print-quality" with
       | some v => qualityValue v
       | none => d.quality_default) := rfl

/-- The decoded scaling default. -/
theorem decode_scaling (d : DriverData) (f : Form) :
    (decode d f).scaling_default =
      (match f "print-scaling" with
       | some v => scalingValue v
       | none => d.scaling_default) := rfl

/-- The decoded speed default. -/
theorem decode_speed (d : DriverData) (f : Form) :
    (decode d f).speed_default =
      (match f "print-speed" with
       | some v => atoiZ v * 2540
       | none => d.speed_default) := rfl

/-- The decoded sides default. -/
theorem decode_sides (d : DriverData) (f : Form) :
    (decode d f).sides_default =
      (match f "sides" with
       | some v => sidesValue v
       | none => d.sides_default) := rfl

/-- The decoded x resolution default. -/
theorem decode_x (d : DriverData) (f : Form) :
    (decode d f).x_default =
      (match f "printer-resolution" with
       | some v => applyResolution d.x_default d.y_default v
       | none => (d.x_default, d.y_default)).1 := rfl

/-- The decoded y resolution default. -/
theorem decode_y (d : DriverData) (f : Form) :
    (decode d f).y_default =
      (match f "printer-resolution" with
       | some v => applyResolution d.x_default d.y_default v
       | none => (d.x_default, d.y_default)).2 := rfl

/-- The decoded default media. -/
theorem decode_media_default (d : DriverData) (f : Form) :
    (decode d f).media_default =
      (match f "media-source" with
       | some v =>
         match d.source.findIdx? (fun s => s == v) with
         | some i => d.media_ready.getD i zeroMediaCol
         | none => d.media_default
       | none => d.media_default) := rfl

/-- Re-decoding the resolution from the same value is stable. -/
theorem applyResolution_stable (x y : Int) (v : String) :
    applyResolution (applyResolution x y v).1 (applyResolution x y v).2 v =
      applyResolution x y v := by
  rcases h : scanResolution v with ⟨_ | a, _ | b⟩ <;> simp [applyResolution, h]

/-- C2 (counterexample): decoding is not idempotent.  With one source
tray-1 holding a stale slot (width 999) and a form that both selects
media-source=tray-1 and supplies ready0-size=na_letter_8.5x11in, the first
decode copies the stale slot into the default media (the scalar pass reads
the slots before the ready-media pass rewrites them), while the second
decode copies the freshly decoded letter slot, so the two results differ in
the default-media field. -/
theorem C2_counterexample :
    decode (decode dOneTray fSourceAndSize) fSourceAndSize ≠ decode dOneTray fSourceAndSize ∧
    (decode dOneTray fSourceAndSize).media_default.size_width = 999 ∧
    (decode (decode dOneTray fSourceAndSize) fSourceAndSize).media_default.size_width = 21590 := by
  refine ⟨?_, by decide, by decide⟩
  decide

/-- C2 (amended): decoding is stable from the second application on:
decode(decode(decode(d,f),f),f) = decode(decode(d,f),f) for every
descriptor and form.  Single-application idempotence holds for every field
except default-media (each is either kept or recomputed from the form
alone), and for default-media as well unless the form combines media-source
with new ready media for the matched source, as in the counterexample. -/
theorem C2_decode_stable (d : DriverData) (f : Form) :
    decode (decode (decode d f) f) f = decode (decode d f) f := by
  apply DriverData.ext
  · rfl
  · rfl
  · -- media_default
    simp only [decode_media_default, decode_source, decode_media_ready,
      decode_bottom_top, decode_left_right]
    cases h : f "media-source" <;> simp [h]
    rename_i v
    cases hi : List.findIdx? (fun s => s == v) d.source <;>
      simp [hi, decode_bottom_top, decode_left_right]
  · rfl
  · rfl
  · simp only [decode_orient]
    cases h : f "orientation-requested" <;> simp [h]
  · simp only [decode_color]
    cases h : f "print-color-mode" <;> simp [h]
  · simp only [decode_content]
    cases h : f "print-content-optimize" <;> simp [h]
  · simp only [decode_darkness]
    cases h : f "print-darkness" <;> simp [h]
  · simp only [decode_quality]
    cases h : f "print-quality" <;> simp [h]
  · simp only [decode_scaling]
    cases h : f "print-scaling" <;> simp [h]
  · simp only [decode_speed]
    cases h : f "print-speed" <;> simp [h]
  · simp only [decode_sides]
    cases h : f "sides" <;> simp [h]
  · simp only [decode_x, decode_y]
    cases h : f "printer-resolution" <;> simp [h, applyResolution_stable]
  · simp only [decode_x, decode_y]
    cases h : f "printer-resolution" <;> simp [h, applyResolution_stable]
